import Mathlib

/-!
Shallow embedding of the Session & Access Controller of the
intelli-leukemia-all-classifier front end, together with the leaf-view
fetches and route guards that its specification talks about.

The embedding follows src/src/contexts/AuthContext.tsx (the auth context),
the AdminRoute guard, and the leaf views that build their own requests
(classification result, dashboard, classifications list).  Client state is
the triple of mutable locations the source touches — the persisted token
in localStorage, the default Authorization header on the shared axios
instance, and the in-memory currentUser — plus the isLoading flag.
Network responses are passed in explicitly as data, and each operation
reports the list of request paths it issued.
-/

namespace IntelliLeukemia

/-- The User record resolved from the server (AuthContext.tsx, lines 8-15). -/
structure User where
  id : String
  email : String
  name : String
  role : String
  designation : String
  status : String
deriving DecidableEq, Repr

/-- The mutable client state the auth controller touches: the persisted
token (localStorage key "token"), the default Authorization header on the
shared axios instance, the in-memory user, and the isLoading flag. -/
structure ClientState where
  token : Option String
  authHeader : Option String
  currentUser : Option User
  isLoading : Bool
deriving DecidableEq, Repr

/-- Derived flag (AuthContext.tsx line 144):
isAuthenticated is currentUser present with status equal to "approved". -/
def isAuthenticated (s : ClientState) : Bool :=
  match s.currentUser with
  | none => false
  | some u => u.status == "approved"

/-- Derived flag (AuthContext.tsx line 145):
isAdmin is currentUser present with role equal to "admin". -/
def isAdmin (s : ClientState) : Bool :=
  match s.currentUser with
  | none => false
  | some u => u.role == "admin"

/-- Outcome of jwtDecode on the persisted token: either the decoded claims
(of which only the optional numeric exp matters here), or a throw. -/
inductive DecodeResult where
  | ok (exp : Option Int)
  | error
deriving DecidableEq, Repr

/-- Outcome of the GET /api/auth/user profile fetch. -/
inductive FetchUserResult where
  | success (u : User)
  | failure
deriving DecidableEq, Repr

/-- fetchUserData (AuthContext.tsx lines 91-101): issues GET /api/auth/user;
on success stores the returned user; on any failure removes the token,
removes the default header and clears the user.  Returns the new state and
the request paths issued. -/
def fetchUserData (s : ClientState) (r : FetchUserResult) :
    ClientState × List String :=
  match r with
  | .success u => ({ s with currentUser := some u }, ["/api/auth/user"])
  | .failure =>
      ({ s with token := none, authHeader := none, currentUser := none },
       ["/api/auth/user"])

/-- Result of running initializeAuth: the final client state and the list
of network request paths issued. -/
structure InitOutcome where
  state : ClientState
  requests : List String
deriving DecidableEq, Repr

/-- initializeAuth (AuthContext.tsx lines 61-89).  now is the current time
in seconds (Date.now() / 1000, hence rational).  The expiry test mirrors
the JavaScript condition (decoded.exp && decoded.exp < currentTime): a
missing exp — and, by JS truthiness, a zero exp — is not treated as
expired.  On a decode throw the token, header and user are all cleared.
The expired branch removes the token and clears the user (it does not
touch the header, which at process start has not been attached yet). -/
def initializeAuth (s : ClientState) (dec : DecodeResult) (now : ℚ)
    (r : FetchUserResult) : InitOutcome :=
  match s.token with
  | none => { state := { s with isLoading := false }, requests := [] }
  | some tok =>
    match dec with
    | .error =>
        { state := { s with token := none, authHeader := none,
                            currentUser := none, isLoading := false },
          requests := [] }
    | .ok exp =>
      match exp with
      | some e =>
          if e ≠ 0 ∧ (e : ℚ) < now then
            { state := { s with token := none, currentUser := none,
                                isLoading := false },
              requests := [] }
          else
            let s1 := { s with authHeader := some ("Bearer " ++ tok) }
            let res := fetchUserData s1 r
            { state := { res.1 with isLoading := false }, requests := res.2 }
      | none =>
          let s1 := { s with authHeader := some ("Bearer " ++ tok) }
          let res := fetchUserData s1 r
          { state := { res.1 with isLoading := false }, requests := res.2 }

/-- The body of the global axios response interceptor for a 401 error
(AuthContext.tsx lines 46-51): remove the persisted token, delete the
default Authorization header, clear the in-memory user. -/
def interceptor401Effect (s : ClientState) : ClientState :=
  { s with token := none, authHeader := none, currentUser := none }

/-- The global response interceptor on an error response with the given
status (AuthContext.tsx lines 43-54): the 401 effect fires only when the
status is 401; every other error passes through unchanged. -/
def responseInterceptorOnError (s : ClientState) (status : Nat) : ClientState :=
  if status == 401 then interceptor401Effect s else s

/-- The server response a login call can see. -/
inductive LoginResponse where
  | success (token : String) (user : User)
  | httpError (status : Nat) (message : Option String)
  | networkError
deriving DecidableEq, Repr

/-- The three distinct throw sites in the login catch block
(AuthContext.tsx lines 112-120). -/
inductive LoginError where
  | pendingApproval
  | serverMessage (msg : String)
  | genericFailure
deriving DecidableEq, Repr

/-- The message string each login throw site puts in its Error. -/
def loginErrorText : LoginError → String
  | .pendingApproval => "Your account is pending approval"
  | .serverMessage m => m
  | .genericFailure => "Failed to login. Please check your credentials."

/-- login (AuthContext.tsx lines 103-121).  On a 2xx response the returned
token is written to localStorage, installed as the default Authorization
header, and the returned user becomes currentUser.  On an error response
the global interceptor runs first (it clears everything on 401), then the
catch block distinguishes status 403 (pending approval) from a response
carrying data.message from everything else. -/
def login (s : ClientState) (resp : LoginResponse) :
    ClientState × Option LoginError :=
  match resp with
  | .success tok u =>
      ({ s with token := some tok,
                authHeader := some ("Bearer " ++ tok),
                currentUser := some u }, none)
  | .httpError status msg =>
      let s1 := responseInterceptorOnError s status
      if status == 403 then (s1, some .pendingApproval)
      else
        match msg with
        | some m => (s1, some (.serverMessage m))
        | none => (s1, some .genericFailure)
  | .networkError => (s, some .genericFailure)

/-- logout (AuthContext.tsx lines 135-139): remove the persisted token,
delete the default Authorization header, clear the in-memory user.  The
body makes no network call, so the issued-request list is empty. -/
def logout (s : ClientState) : ClientState × List String :=
  ({ s with token := none, authHeader := none, currentUser := none }, [])

/-- What a route guard renders. -/
inductive RouteOutcome where
  | loadingScreen
  | outlet
  | navigate (target : String)
deriving DecidableEq, Repr

/-- AdminRoute (components/guards/AdminRoute): while isLoading show the
loading screen; then render the nested routes if isAdmin, else redirect
to /dashboard. -/
def adminRoute (s : ClientState) : RouteOutcome :=
  if s.isLoading then .loadingScreen
  else if isAdmin s then .outlet
  else .navigate "/dashboard"

/-- An outbound request a leaf view builds for itself: path plus the
Authorization header value it attaches. -/
structure LeafRequest where
  path : String
  authorization : String
deriving DecidableEq, Repr

/-- What a leaf view's fetch does before any network traffic: either it
throws (token missing in storage) or it issues a request it built itself. -/
inductive LeafFetchOutcome where
  | thrown (msg : String)
  | request (r : LeafRequest)
deriving DecidableEq, Repr

/-- ClassificationResult.fetchResult request construction: reads the token
straight from localStorage, throws if absent, else fetches
/api/classification/(id) with a Bearer header built from that token. -/
def fetchResultRequest (storedToken : Option String) (id : String) :
    LeafFetchOutcome :=
  match storedToken with
  | none => .thrown "Authentication token not found"
  | some tok =>
      .request { path := "/api/classification/" ++ id,
                 authorization := "Bearer " ++ tok }

/-- Dashboard.fetchDashboardData request construction: reads the token
straight from localStorage, throws if absent, else fetches
/api/dashboard/statistics with a Bearer header built from that token. -/
def fetchDashboardRequest (storedToken : Option String) : LeafFetchOutcome :=
  match storedToken with
  | none => .thrown "Authentication token not found"
  | some tok =>
      .request { path := "/api/dashboard/statistics",
                 authorization := "Bearer " ++ tok }

/-- Classify.fetchClassifications request construction: reads the token
straight from localStorage, throws if absent, else fetches
/api/classifications with a Bearer header built from that token. -/
def fetchClassificationsRequest (storedToken : Option String) :
    LeafFetchOutcome :=
  match storedToken with
  | none => .thrown "No authentication token found"
  | some tok =>
      .request { path := "/api/classifications",
                 authorization := "Bearer " ++ tok }

/-- Sample user for an admin account still pending approval. -/
def adminPendingUser : User :=
  { id := "1", email := "admin@example.com", name := "Ada",
    role := "admin", designation := "Doctor", status := "pending" }

/-- Sample non-admin user still pending approval. -/
def pendingUser : User :=
  { id := "2", email := "pat@example.com", name := "Pat",
    role := "user", designation := "Nurse", status := "pending" }

/-- Sample approved non-admin user. -/
def approvedUser : User :=
  { id := "3", email := "cam@example.com", name := "Cam",
    role := "user", designation := "Doctor", status := "approved" }

/-- Client state at process start: whatever token storage holds, no default
header attached yet, no user in memory, isLoading true. -/
def startState (tok : Option String) : ClientState :=
  { token := tok, authHeader := none, currentUser := none, isLoading := true }

/-!
Theorems settling the claims.
-/

/-- C3: On a response carrying status 401 the global interceptor removes
the persisted token, removes the attached default credential and clears
the in-memory user, so the session is no longer Authenticated; the
discard-and-clear effect is idempotent, so applying it a second time from
any state leaves the state unchanged. -/
theorem C3_interceptor_discard_idempotent (s : ClientState) :
    (responseInterceptorOnError s 401).token = none ∧
    (responseInterceptorOnError s 401).authHeader = none ∧
    (responseInterceptorOnError s 401).currentUser = none ∧
    isAuthenticated (responseInterceptorOnError s 401) = false ∧
    interceptor401Effect (interceptor401Effect s) = interceptor401Effect s ∧
    responseInterceptorOnError (responseInterceptorOnError s 401) 401
      = responseInterceptorOnError s 401 :=
  ⟨rfl, rfl, rfl, rfl, rfl, rfl⟩

/-- C6 counterexample: a 2xx login response whose body carries a user with
status pending stores the returned token, yet the resulting session is not
Authenticated, contradicting the claim that every 2xx login transitions
the session to Authenticated with the returned user. -/
theorem C6_login_2xx_pending_cex :
    (login (startState none) (.success "tok" pendingUser)).1.token
      = some "tok" ∧
    isAuthenticated (login (startState none) (.success "tok" pendingUser)).1
      = false := by
  decide

/-- C6 (amended): for every 2xx login response with body token and user,
login stores the returned token, installs it as the default Bearer
credential, sets the session user to the returned user and reports no
error; the resulting session is Authenticated exactly when the returned
user has status approved. -/
theorem C6_login_success_stores (s : ClientState) (tok : String) (u : User) :
    login s (.success tok u) =
      ({ s with token := some tok,
                authHeader := some ("Bearer " ++ tok),
                currentUser := some u }, none) ∧
    isAuthenticated (login s (.success tok u)).1 = (u.status == "approved") :=
  ⟨rfl, rfl⟩

/-- C7: logout is idempotent — applying it twice equals applying it once;
calling it while already Unauthenticated (no token, no attached credential,
no in-memory user) leaves the state unchanged; and it issues no network
request. -/
theorem C7_logout_idempotent (s : ClientState) (b : Bool) :
    (logout (logout s).1).1 = (logout s).1 ∧
    logout { token := none, authHeader := none, currentUser := none,
             isLoading := b } =
      ({ token := none, authHeader := none, currentUser := none,
         isLoading := b }, []) ∧
    (logout s).2 = [] :=
  ⟨rfl, rfl, rfl⟩

/-- C10: when jwtDecode throws on the persisted token, initializeAuth
fails closed — it removes the token, removes the default credential,
clears the user, ends not Authenticated, and issues no profile fetch;
while a decodable token carrying no exp claim is treated as unexpired and
proceeds to the profile fetch. -/
theorem C10_decode_failure_fails_closed (tok : String) (ah : Option String)
    (cu : Option User) (il : Bool) (now : ℚ) (r : FetchUserResult) :
    initializeAuth ⟨some tok, ah, cu, il⟩ .error now r =
      { state := ⟨none, none, none, false⟩, requests := [] } ∧
    isAuthenticated ⟨none, none, none, false⟩ = false ∧
    (initializeAuth ⟨some tok, ah, cu, il⟩ (.ok none) now r).requests
      = ["/api/auth/user"] := by
  refine ⟨rfl, rfl, ?_⟩
  cases r <;> rfl

/-- C8 counterexample: the classification-list, classification-result and
dashboard leaf views each build requests whose Authorization header
depends on the persisted token value, i.e. they read the token directly
from storage, contradicting the claim that no part of the system outside
the session controller reads or writes the token. -/
theorem C8_leaf_reads_token_cex :
    fetchClassificationsRequest (some "tokenA")
      ≠ fetchClassificationsRequest (some "tokenB") ∧
    fetchResultRequest (some "tokenA") "7"
      ≠ fetchResultRequest (some "tokenB") "7" ∧
    fetchDashboardRequest (some "tokenA")
      ≠ fetchDashboardRequest (some "tokenB") := by
  decide

/-- C8 (amended): only the session controller writes the persisted token,
but the leaf views read it directly from storage: each builds its own
Bearer Authorization header from the stored token and throws when the
token is absent. -/
theorem C8_leaf_views_read_token (tok : String) (id : String) :
    fetchResultRequest (some tok) id =
      .request { path := "/api/classification/" ++ id,
                 authorization := "Bearer " ++ tok } ∧
    fetchDashboardRequest (some tok) =
      .request { path := "/api/dashboard/statistics",
                 authorization := "Bearer " ++ tok } ∧
    fetchClassificationsRequest (some tok) =
      .request { path := "/api/classifications",
                 authorization := "Bearer " ++ tok } ∧
    fetchResultRequest none id = .thrown "Authentication token not found" ∧
    fetchDashboardRequest none = .thrown "Authentication token not found" ∧
    fetchClassificationsRequest none
      = .thrown "No authentication token found" :=
  ⟨rfl, rfl, rfl, rfl, rfl, rfl⟩

/-- C1 counterexample: starting from a persisted valid token, when the
profile fetch succeeds with a user whose status is pending, the session is
indeed not Authenticated, but the persisted token is NOT discarded — it is
still stored afterwards — contradicting the claim that on any
non-approved status the token is discarded. -/
theorem C1_pending_keeps_token_cex :
    (initializeAuth (startState (some "tok")) (.ok none) 1000
        (.success pendingUser)).state.token = some "tok" ∧
    isAuthenticated (initializeAuth (startState (some "tok")) (.ok none) 1000
        (.success pendingUser)).state = false := by
  decide

/-- C1 (amended): for every persisted token that is valid and unexpired at
initialization, initializeAuth issues exactly one profile fetch of
/api/auth/user; on success the fetched user becomes the session user and
the session is Authenticated exactly when that user has status approved;
on a non-approved status the session is not Authenticated but the
persisted token is retained, not discarded. -/
theorem C1_valid_token_one_fetch (tok : String) (ah : Option String)
    (cu : Option User) (il : Bool) (exp : Option Int) (now : ℚ) (u : User)
    (hvalid : ∀ e, exp = some e → ¬(e ≠ 0 ∧ (e : ℚ) < now)) :
    initializeAuth ⟨some tok, ah, cu, il⟩ (.ok exp) now (.success u) =
      { state := ⟨some tok, some ("Bearer " ++ tok), some u, false⟩,
        requests := ["/api/auth/user"] } ∧
    isAuthenticated ⟨some tok, some ("Bearer " ++ tok), some u, false⟩
      = (u.status == "approved") := by
  refine ⟨?_, rfl⟩
  cases exp with
  | none => rfl
  | some e =>
      have h : ¬(e ≠ 0 ∧ (e : ℚ) < now) := hvalid e rfl
      show (if e ≠ 0 ∧ (e : ℚ) < now then _ else _) = _
      rw [if_neg h]
      rfl

/-- C1 witness: the amended theorem applied at a concrete unexpired token
whose decoded claims carry no exp, with a successful approved fetch. -/
theorem C1_valid_token_one_fetch_witness :
    initializeAuth ⟨some "tok", none, none, true⟩ (.ok none) 1000
        (.success approvedUser) =
      { state := ⟨some "tok", some ("Bearer " ++ "tok"), some approvedUser,
                  false⟩,
        requests := ["/api/auth/user"] } ∧
    isAuthenticated ⟨some "tok", some ("Bearer " ++ "tok"),
        some approvedUser, false⟩ = (approvedUser.status == "approved") :=
  C1_valid_token_one_fetch "tok" none none true none 1000 approvedUser
    (fun _ he => Option.noConfusion he)

/-- C2 counterexample: a reachable session state — produced by
initializeAuth on a valid token whose profile fetch returns an admin whose
status is pending — has isAdmin true and isAuthenticated false,
contradicting the claim that isAdmin implies isAuthenticated. -/
theorem C2_admin_without_approval_cex :
    isAdmin (initializeAuth (startState (some "tok")) (.ok none) 1000
        (.success adminPendingUser)).state = true ∧
    isAuthenticated (initializeAuth (startState (some "tok")) (.ok none) 1000
        (.success adminPendingUser)).state = false := by
  decide

/-- C2 (amended): isAdmin is true exactly when a fetched user record is in
memory with role admin; it is computed independently of the status field
and of token presence, so it does not imply isAuthenticated. -/
theorem C2_isAdmin_iff_role_admin (s : ClientState) :
    isAdmin s = true ↔ ∃ u, s.currentUser = some u ∧ u.role = "admin" := by
  cases s with
  | mk t a c l =>
      cases c with
      | none => simp [isAdmin]
      | some u => simp [isAdmin]

/-- C4 counterexample: a persisted token whose exp claim is 0 — a time in
the past relative to the start time of 1000 seconds — is not discarded,
and a profile fetch IS issued, because the JavaScript truthiness test
treats a zero exp like a missing one; this contradicts the claim that
every past exp leads to discard with no fetch. -/
theorem C4_zero_exp_fetches_cex :
    (initializeAuth (startState (some "tok")) (.ok (some 0)) 1000
        (.success approvedUser)).requests = ["/api/auth/user"] ∧
    (initializeAuth (startState (some "tok")) (.ok (some 0)) 1000
        (.success approvedUser)).state.token = some "tok" := by
  decide

/-- C4 (amended): for every persisted token whose exp claim is nonzero and
in the past at process start, initializeAuth discards the token, clears
the user so the session is not Authenticated, and performs no profile
fetch; a zero exp falls through the truthiness test and proceeds to the
profile fetch instead. -/
theorem C4_expired_token_no_fetch (tok : String) (ah : Option String)
    (cu : Option User) (il : Bool) (e : Int) (now : ℚ) (r : FetchUserResult)
    (hnz : e ≠ 0) (hpast : (e : ℚ) < now) :
    initializeAuth ⟨some tok, ah, cu, il⟩ (.ok (some e)) now r =
      { state := ⟨none, ah, none, false⟩, requests := [] } ∧
    isAuthenticated ⟨none, ah, none, false⟩ = false := by
  refine ⟨?_, rfl⟩
  show (if e ≠ 0 ∧ (e : ℚ) < now then _ else _) = _
  rw [if_pos ⟨hnz, hpast⟩]

/-- C4 witness: the amended theorem applied at a concrete token with
exp 5 seconds, initialized at time 1000 seconds. -/
theorem C4_expired_token_no_fetch_witness :
    initializeAuth ⟨some "tok", none, none, true⟩ (.ok (some 5)) 1000
        .failure =
      { state := ⟨none, none, none, false⟩, requests := [] } ∧
    isAuthenticated ⟨none, (none : Option String), none, false⟩ = false :=
  C4_expired_token_no_fetch "tok" none none true 5 1000 .failure
    (by decide) (by decide)

/-- C5: a login whose server response has status 403 fails with the
pending-approval error — a branch distinct from the ones any other status
can reach — and leaves the state unchanged, so no token is stored and no
credential is attached. -/
theorem C5_login_403_distinct (s : ClientState) (msg : Option String)
    (status : Nat) (msg2 : Option String) (hne : status ≠ 403) :
    login s (.httpError 403 msg) = (s, some .pendingApproval) ∧
    (login s (.httpError status msg2)).2 ≠ some LoginError.pendingApproval := by
  constructor
  · rfl
  · have hb : (status == 403) = false := by
      simp [hne]
    simp only [login, hb, Bool.false_eq_true, if_false]
    cases msg2 <;> simp

/-- C5 witness: the theorem applied with a 403 response and, for the
distinctness part, a 401 response without a message. -/
theorem C5_login_403_distinct_witness :
    login (startState none) (.httpError 403 none)
      = (startState none, some .pendingApproval) ∧
    (login (startState none) (.httpError 401 none)).2
      ≠ some LoginError.pendingApproval :=
  C5_login_403_distinct (startState none) none 401 none (by decide)

/-- C9: once the session is resolved, the admin guard evaluated for a user
with role user and status approved redirects to /dashboard, never to the
/login sign-in screen; and whenever isAdmin holds in a resolved state the
guard renders its nested routes. -/
theorem C9_admin_guard_redirects (u : User) (tok ah : Option String)
    (hrole : u.role = "user") (_hstatus : u.status = "approved") :
    adminRoute { token := tok, authHeader := ah, currentUser := some u,
                 isLoading := false } = .navigate "/dashboard" ∧
    adminRoute { token := tok, authHeader := ah, currentUser := some u,
                 isLoading := false } ≠ .navigate "/login" ∧
    ∀ s : ClientState, s.isLoading = false → isAdmin s = true →
      adminRoute s = .outlet := by
  have hAdmin : isAdmin ⟨tok, ah, some u, false⟩ = false := by
    simp [isAdmin, hrole]
  refine ⟨?_, ?_, ?_⟩
  · simp [adminRoute, hAdmin]
  · simp [adminRoute, hAdmin]
  · intro s hl ha
    simp [adminRoute, hl, ha]

/-- C9 witness: the theorem applied to the concrete approved non-admin
sample user. -/
theorem C9_admin_guard_redirects_witness :
    adminRoute { token := some "t", authHeader := none,
                 currentUser := some approvedUser, isLoading := false }
      = .navigate "/dashboard" ∧
    adminRoute { token := some "t", authHeader := none,
                 currentUser := some approvedUser, isLoading := false }
      ≠ .navigate "/login" :=
  ⟨(C9_admin_guard_redirects approvedUser (some "t") none rfl rfl).1,
   (C9_admin_guard_redirects approvedUser (some "t") none rfl rfl).2.1⟩

end IntelliLeukemia
